import Mathlib

/-!
Verification of the F200 hardware monitor protocol implementation in
HardwareIO.cpp: command framing (PrepareUSBCommand), USB command execution
(ExecuteUSBCommand), calibration retrieval (GetCalibrationRawData) and the
version-aware calibration blob decoder (ProjectionCalibrate).

Bytes are modelled as natural numbers below 256, buffers as lists of bytes,
and machine integers as Int or Nat with explicit reduction modulo a power of
two where the original code truncates.
-/

/-- Fixed request header size: six 32-bit words, 24 bytes. -/
def IVCAM_MONITOR_HEADER_SIZE : Nat := 24

/-- Maximum transfer size of the monitor protocol. -/
def IVCAM_MONITOR_MAX_BUFFER_SIZE : Nat := 1024

/-- Magic constant written at offset 2 of every request. -/
def IVCAM_MONITOR_MAGIC_NUMBER : Nat := 0xcdab

/-- Minimum supported calibration version. -/
def IVCAM_MIN_SUPPORTED_VERSION : Nat := 13

/-- Byte size of the calibration parameter block on the wire. -/
def SIZE_OF_CALIB_PARAM_BYTES : Nat := 512

/-- Byte size of the calibration header: validity tag plus version. -/
def SIZE_OF_CALIB_HEADER_BYTES : Nat := 4

/-- Opcode of the get calibration table command. -/
def GetCalibrationTable : Nat := 0x3D

/-- Modelled from the spec: the byte size of the CameraCalibrationParameters
structure, which is declared in a header outside the available sources; the
spec fixes the calibration parameter byte size at 512. -/
def sizeofCameraCalibrationParameters : Nat := 512

/-- Modelled from the spec: the CameraCalibrationParametersVersion structure
is an integer version tag followed by the calibration parameter structure,
which is declared in a header outside the available sources. -/
def sizeofCameraCalibrationParametersVersion : Nat :=
  4 + sizeofCameraCalibrationParameters

/-- The n bytes of a buffer starting at a given offset. -/
def bytesAt (l : List Nat) (off n : Nat) : List Nat :=
  (l.drop off).take n

/-- Value of a 16-bit little endian word held in the first two bytes. -/
def uint16LE (l : List Nat) : Nat :=
  l.getD 0 0 + 256 * l.getD 1 0

/-- Value of a 32-bit little endian word held in the first four bytes. -/
def uint32LE (l : List Nat) : Nat :=
  l.getD 0 0 + 256 * l.getD 1 0 + 65536 * l.getD 2 0 + 16777216 * l.getD 3 0

/-- The two bytes of a 16-bit value in little endian order. -/
def le16 (v : Nat) : List Nat :=
  [v % 256, v / 256 % 256]

/-- The four bytes of a 32-bit value in little endian order. -/
def le32 (v : Nat) : List Nat :=
  [v % 256, v / 256 % 256, v / 65536 % 256, v / 16777216 % 256]

/-- bcdtoint from HardwareIO.cpp: folds the bytes of the buffer into a
decimal number, one factor of ten per byte, with no per digit range check. -/
def bcdtoint (buf : List Nat) : Nat :=
  buf.foldl (fun r b => r * 10 + b) 0

/-- getVersionOfCalibration from HardwareIO.cpp: returns 0 unless the two
validation bytes equal 0x14 0x0A, otherwise decodes the two version bytes
as BCD. -/
def getVersionOfCalibration (validation version : List Nat) : Nat :=
  if validation = [0x14, 0x0A] then bcdtoint version else 0

/-- Result of PrepareUSBCommand: the bytes written into the request buffer,
the value left in the by-reference requestSize argument, and the returned
value. -/
structure PrepareResult where
  buffer : List Nat
  requestSize : Nat
  ret : Nat
deriving DecidableEq

/-- PrepareUSBCommand from HardwareIO.cpp. requestSize0 is the incoming
value of the by-reference size argument (the buffer capacity). On success
the buffer holds the 16-bit length field, the magic constant, the opcode,
the four parameters and the optional payload; the length field is the total
length minus four, truncated to 16 bits by the uint16_t cast. -/
def PrepareUSBCommand (requestSize0 : Nat) (op p1 p2 p3 p4 : Nat)
    (data : List Nat) : PrepareResult :=
  if requestSize0 < IVCAM_MONITOR_HEADER_SIZE then
    ⟨[], requestSize0, 0⟩
  else
    ⟨le16 ((IVCAM_MONITOR_HEADER_SIZE + data.length - 4) % 65536) ++
       (le16 IVCAM_MONITOR_MAGIC_NUMBER ++ (le32 op ++ (le32 p1 ++
         (le32 p2 ++ (le32 p3 ++ (le32 p4 ++ data)))))),
     IVCAM_MONITOR_HEADER_SIZE + data.length,
     IVCAM_MONITOR_HEADER_SIZE + data.length⟩

/-- The environment of one ExecuteUSBCommand call: whether the timed lock is
acquired within its timeout, the status returned by the OUT bulk transfer,
the status returned by the IN bulk transfer, the transferred byte count the
IN transfer leaves in outXfer, and the bytes the IN transfer places in the
scratch buffer. -/
structure USBEnv where
  lockAcquired : Bool
  outResult : Int
  inResult : Int
  inTransferred : Int
  response : List Nat
deriving DecidableEq

/-- Outcome of ExecuteUSBCommand: a returned integer, or the exception
thrown when the lock acquisition times out. -/
inductive ExecOutcome where
  | ret : Int → ExecOutcome
  | lockTimeout : ExecOutcome
deriving DecidableEq

/-- Observable effects of one ExecuteUSBCommand call: the outcome, how many
times the mutex was unlocked on the path taken, whether it was acquired,
the value written to the by-reference op argument (none when untouched),
the bytes copied into the destination buffer (none when untouched), the
value left in the by-reference inSize argument (none when untouched), and
whether the IN transfer was attempted. -/
structure ExecResult where
  outcome : ExecOutcome
  unlocks : Nat
  lockWasAcquired : Bool
  opOut : Option Nat
  payloadOut : Option (List Nat)
  inSizeOut : Option Nat
  readAttempted : Bool
deriving DecidableEq

/-- ExecuteUSBCommand from HardwareIO.cpp. inNonNull states that the
destination pointer is non-null and inSize0 is the incoming value of the
by-reference inSize argument (the destination capacity). -/
def ExecuteUSBCommand (env : USBEnv) (inNonNull : Bool) (inSize0 : Nat) :
    ExecResult :=
  if env.lockAcquired then
    if env.outResult < 0 then
      ⟨ExecOutcome.ret env.outResult, 0, true, none, none, none, false⟩
    else if inNonNull = true ∧ inSize0 ≠ 0 then
      if env.inTransferred < 4 then
        ⟨ExecOutcome.ret (-1), 1, true, none, none, none, true⟩
      else if (inSize0 : Int) < env.inTransferred then
        ⟨ExecOutcome.ret (-1), 1, true, some (uint32LE env.response),
          none, none, true⟩
      else
        ⟨ExecOutcome.ret env.inResult, 1, true, some (uint32LE env.response),
          some (env.response.take env.inTransferred.toNat),
          some env.inTransferred.toNat, true⟩
    else
      ⟨ExecOutcome.ret env.outResult, 1, true, none, none, none, false⟩
  else
    ⟨ExecOutcome.lockTimeout, 0, false, none, none, none, false⟩

/-- GetCalibrationRawData from HardwareIO.cpp: frames a header-only get
calibration table request into a buffer of exactly the header size, runs the
exchange, and throws unless the framing returned a positive count and the
exchange did not return -1. The ok value carries the observable effects of
the exchange, whose inSizeOut component is the reported byte count. -/
def GetCalibrationRawData (env : USBEnv) (bytesReturned0 : Nat) :
    Except String ExecResult :=
  if 0 < (PrepareUSBCommand IVCAM_MONITOR_HEADER_SIZE GetCalibrationTable
      0 0 0 0 []).ret then
    match (ExecuteUSBCommand env true bytesReturned0).outcome with
    | ExecOutcome.lockTimeout => Except.error "usbMutex timed out"
    | ExecOutcome.ret v =>
      if v = -1 then
        Except.error "usb transfer to retrieve calibration data failed"
      else
        Except.ok (ExecuteUSBCommand env true bytesReturned0)
  else
    Except.error "usb transfer to retrieve calibration data failed"

/-- Observable effects of one ProjectionCalibrate call: the bytes of the
output parameter structure after the call, the bytes of the local tester
data structure when the code writes it (none when it stays uninitialized),
and whether the thermal data initialization and the build parameters entry
points of the external collaborator were invoked. -/
structure CalibResult where
  calprms : List Nat
  testerData : Option (List Nat)
  thermalInitCalled : Bool
  buildParametersCalled : Bool
deriving DecidableEq

/-- ProjectionCalibrate from HardwareIO.cpp over the raw transfer buffer.
rawCalibData is the content of the buffer handed in by the constructor, len
the received length, calprms0 the bytes of the output structure before the
call, and sizeofTesterData the byte size of the IVCAMTesterData structure,
which is declared in a header outside the available sources and is kept as
a parameter, at least 4 in every use. The code reads the validity tag and
version right after the leading 4-byte region; at version 13 it copies 512
bytes starting 4 bytes past the tag into the output structure, fills the
tester data header from the tag bytes and zero-fills the rest; above 13 it
zeroes a versioned structure, fills it from the blob past its leading
integer field up to the minimum of its size and len, copies its parameter
field to the output, and fills the tester data from the tag bytes plus the
bytes at offset 516 of the post-header region. In the versioned branch the
original code converts the copy length to size_t, so calls with len below 4
there are outside the defined domain; the model truncates at zero. -/
def ProjectionCalibrate (sizeofTesterData : Nat) (rawCalibData : List Nat)
    (len : Nat) (calprms0 : List Nat) : CalibResult :=
  if getVersionOfCalibration (bytesAt (rawCalibData.drop 4) 0 2)
      (bytesAt (rawCalibData.drop 4) 2 2) = IVCAM_MIN_SUPPORTED_VERSION then
    ⟨bytesAt (rawCalibData.drop 4) 4 sizeofCameraCalibrationParameters,
     some (bytesAt (rawCalibData.drop 4) 0 SIZE_OF_CALIB_HEADER_BYTES ++
       List.replicate (sizeofTesterData - SIZE_OF_CALIB_HEADER_BYTES) 0),
     false, true⟩
  else if IVCAM_MIN_SUPPORTED_VERSION < getVersionOfCalibration
      (bytesAt (rawCalibData.drop 4) 0 2) (bytesAt (rawCalibData.drop 4) 2 2) then
    ⟨bytesAt
       (List.replicate 4 0 ++
         (bytesAt (rawCalibData.drop 4) 0
             (min sizeofCameraCalibrationParametersVersion len - 4) ++
           List.replicate (sizeofCameraCalibrationParametersVersion -
             min sizeofCameraCalibrationParametersVersion len) 0))
       4 sizeofCameraCalibrationParameters,
     some (bytesAt (rawCalibData.drop 4) 0 SIZE_OF_CALIB_HEADER_BYTES ++
       bytesAt (rawCalibData.drop 4)
         (SIZE_OF_CALIB_PARAM_BYTES + SIZE_OF_CALIB_HEADER_BYTES)
         (sizeofTesterData - SIZE_OF_CALIB_HEADER_BYTES)),
     true, true⟩
  else
    ⟨calprms0, none, false, false⟩

/-- Helper: with the lock acquired, ExecuteUSBCommand never reports the
lock timeout outcome. -/
theorem ExecuteUSBCommand_locked_outcome (env : USBEnv) (nn : Bool) (s : Nat)
    (hlock : env.lockAcquired = true) :
    (ExecuteUSBCommand env nn s).outcome ≠ ExecOutcome.lockTimeout := by
  unfold ExecuteUSBCommand
  rw [hlock]
  repeat' split
  all_goals simp_all

/-- Claim C1: on the branch where the timed lock was acquired and the OUT
bulk transfer returns a negative status, ExecuteUSBCommand returns without
releasing the lock even though it acquired it, so the lock is not released
exactly once on that exit branch. Evaluation at the failing input: lock
acquired, OUT transfer status -1. -/
theorem ExecuteUSBCommand_out_failure_leaks_lock :
    (ExecuteUSBCommand ⟨true, -1, 0, 0, []⟩ true 512).lockWasAcquired = true ∧
    (ExecuteUSBCommand ⟨true, -1, 0, 0, []⟩ true 512).unlocks = 0 := by
  decide

/-- Claim C2, counterexample: with the lock acquired and the OUT transfer
failing with status -2 (a negative, non-success result), the fetcher does
not throw: it returns normally, because the code only compares the
execution result against -1. -/
theorem GetCalibrationRawData_silent_failure :
    GetCalibrationRawData ⟨true, -2, 0, 0, []⟩ 512 =
      Except.ok ⟨ExecOutcome.ret (-2), 0, true, none, none, none, false⟩ ∧
    (-2 : Int) < 0 := by
  constructor
  · rfl
  · decide

/-- Claim C2, amended: with the lock acquired, GetCalibrationRawData throws
the calibration failure exactly when the execution result equals -1; any
other outcome, including other negative transfer statuses, is returned
normally, carrying the byte count the executor left in the by-reference
size argument. -/
theorem GetCalibrationRawData_throws_iff_minus_one (env : USBEnv) (b0 : Nat)
    (hlock : env.lockAcquired = true) :
    (GetCalibrationRawData env b0 =
        Except.error "usb transfer to retrieve calibration data failed" ↔
      (ExecuteUSBCommand env true b0).outcome = ExecOutcome.ret (-1)) ∧
    ((ExecuteUSBCommand env true b0).outcome ≠ ExecOutcome.ret (-1) →
      GetCalibrationRawData env b0 =
        Except.ok (ExecuteUSBCommand env true b0)) := by
  have hnt := ExecuteUSBCommand_locked_outcome env true b0 hlock
  have hp : 0 < (PrepareUSBCommand IVCAM_MONITOR_HEADER_SIZE
      GetCalibrationTable 0 0 0 0 []).ret := by decide
  unfold GetCalibrationRawData
  rcases h : (ExecuteUSBCommand env true b0).outcome with v | _
  · by_cases hv : v = -1
    · subst hv
      simp [h, hp]
    · simp [h, hv, hp]
  · exact absurd h hnt

/-- Witness for the amended claim C2 at a concrete successful exchange. -/
theorem GetCalibrationRawData_throws_iff_minus_one_witness :
    (⟨true, 0, 5, 4, [1, 2, 3, 4]⟩ : USBEnv).lockAcquired = true ∧
    ((GetCalibrationRawData ⟨true, 0, 5, 4, [1, 2, 3, 4]⟩ 1000 =
        Except.error "usb transfer to retrieve calibration data failed" ↔
      (ExecuteUSBCommand ⟨true, 0, 5, 4, [1, 2, 3, 4]⟩ true 1000).outcome =
        ExecOutcome.ret (-1)) ∧
    ((ExecuteUSBCommand ⟨true, 0, 5, 4, [1, 2, 3, 4]⟩ true 1000).outcome ≠
        ExecOutcome.ret (-1) →
      GetCalibrationRawData ⟨true, 0, 5, 4, [1, 2, 3, 4]⟩ 1000 =
        Except.ok (ExecuteUSBCommand ⟨true, 0, 5, 4, [1, 2, 3, 4]⟩ true 1000))) :=
  ⟨rfl, GetCalibrationRawData_throws_iff_minus_one _ 1000 rfl⟩

/-- Claim C3, counterexample: a response of exactly 4 bytes with ample
caller capacity succeeds but reports a payload size of 4, not 0, and the
4 status bytes are copied into the destination buffer. -/
theorem ExecuteUSBCommand_four_byte_reports_four :
    (ExecuteUSBCommand ⟨true, 0, 0, 4, [0xAA, 0xBB, 0xCC, 0xDD]⟩ true
      100).inSizeOut = some 4 ∧
    (ExecuteUSBCommand ⟨true, 0, 0, 4, [0xAA, 0xBB, 0xCC, 0xDD]⟩ true
      100).payloadOut = some [0xAA, 0xBB, 0xCC, 0xDD] ∧
    (ExecuteUSBCommand ⟨true, 0, 0, 4, [0xAA, 0xBB, 0xCC, 0xDD]⟩ true
      100).inSizeOut ≠ some 0 := by
  decide

/-- Claim C3, amended: when the IN transfer returns exactly 4 bytes and the
caller capacity is at least 4, the call succeeds, the 4 bytes are decoded
as the status word, the reported size is 4, and the 4 status bytes are also
copied into the destination buffer: the status word is counted in the
reported payload. -/
theorem ExecuteUSBCommand_four_byte_response (env : USBEnv) (inSize0 : Nat)
    (hlock : env.lockAcquired = true) (hout : 0 ≤ env.outResult)
    (hx : env.inTransferred = 4) (hcap : 4 ≤ inSize0) :
    ExecuteUSBCommand env true inSize0 =
      ⟨ExecOutcome.ret env.inResult, 1, true, some (uint32LE env.response),
        some (env.response.take 4), some 4, true⟩ := by
  have h1 : ¬ env.outResult < 0 := not_lt.mpr hout
  have h2 : inSize0 ≠ 0 := by omega
  have h3 : ¬ env.inTransferred < 4 := by rw [hx]; omega
  have h4 : ¬ ((inSize0 : Int) < env.inTransferred) := by
    rw [hx]; exact_mod_cast not_lt.mpr (by exact_mod_cast hcap)
  simp [ExecuteUSBCommand, hlock, h1, h2, h3, h4, hx, hcap]

/-- Witness for the amended claim C3 at a concrete 4-byte response. -/
theorem ExecuteUSBCommand_four_byte_response_witness :
    ((⟨true, 0, 3, 4, [1, 2, 3, 4]⟩ : USBEnv).lockAcquired = true ∧
      (0 : Int) ≤ (⟨true, 0, 3, 4, [1, 2, 3, 4]⟩ : USBEnv).outResult ∧
      (⟨true, 0, 3, 4, [1, 2, 3, 4]⟩ : USBEnv).inTransferred = 4 ∧
      4 ≤ 9) ∧
    ExecuteUSBCommand ⟨true, 0, 3, 4, [1, 2, 3, 4]⟩ true 9 =
      ⟨ExecOutcome.ret 3, 1, true,
        some (uint32LE [1, 2, 3, 4]), some ([1, 2, 3, 4].take 4),
        some 4, true⟩ :=
  ⟨⟨rfl, by decide, rfl, by decide⟩,
   ExecuteUSBCommand_four_byte_response _ 9 rfl (by decide) rfl (by decide)⟩

/-- Claim C8, counterexample: a 12-byte response against a capacity of 10
is rejected even though its payload, the 8 bytes past the status word, fits
the capacity: the code compares the whole transferred count, status word
included, against the capacity. -/
theorem ExecuteUSBCommand_fitting_payload_rejected :
    (ExecuteUSBCommand ⟨true, 0, 0, 12, [1, 2, 3, 4, 5, 6, 7, 8, 9, 10, 11, 12]⟩
      true 10).outcome = ExecOutcome.ret (-1) ∧
    (ExecuteUSBCommand ⟨true, 0, 0, 12, [1, 2, 3, 4, 5, 6, 7, 8, 9, 10, 11, 12]⟩
      true 10).payloadOut = none ∧
    12 - 4 ≤ 10 := by
  decide

/-- Claim C8, amended: with at least 4 bytes transferred, the exchange is
rejected as buffer-too-small exactly when the whole transferred count,
status word included, exceeds the caller capacity; when the transferred
count fits the capacity the exchange is accepted and all transferred bytes
are copied without truncation. -/
theorem ExecuteUSBCommand_capacity_check (env : USBEnv) (inSize0 : Nat)
    (hlock : env.lockAcquired = true) (hout : 0 ≤ env.outResult)
    (hsz : inSize0 ≠ 0) (hx4 : 4 ≤ env.inTransferred) :
    ((inSize0 : Int) < env.inTransferred →
      ExecuteUSBCommand env true inSize0 =
        ⟨ExecOutcome.ret (-1), 1, true, some (uint32LE env.response),
          none, none, true⟩) ∧
    (env.inTransferred ≤ (inSize0 : Int) →
      ExecuteUSBCommand env true inSize0 =
        ⟨ExecOutcome.ret env.inResult, 1, true, some (uint32LE env.response),
          some (env.response.take env.inTransferred.toNat),
          some env.inTransferred.toNat, true⟩) := by
  have h1 : ¬ env.outResult < 0 := not_lt.mpr hout
  have h3 : ¬ env.inTransferred < 4 := by omega
  constructor
  · intro hbig
    simp [ExecuteUSBCommand, hlock, h1, hsz, h3, hbig]
  · intro hfit
    have h4 : ¬ ((inSize0 : Int) < env.inTransferred) := not_lt.mpr hfit
    simp [ExecuteUSBCommand, hlock, h1, hsz, h3, h4]

/-- Witness for the amended claim C8: one rejected and one accepted
exchange on the same 20-byte response. -/
theorem ExecuteUSBCommand_capacity_check_witness :
    ExecuteUSBCommand ⟨true, 0, 2, 20, List.replicate 20 1⟩ true 6 =
      ⟨ExecOutcome.ret (-1), 1, true,
        some (uint32LE (List.replicate 20 1)), none, none, true⟩ ∧
    ExecuteUSBCommand ⟨true, 0, 2, 20, List.replicate 20 1⟩ true 30 =
      ⟨ExecOutcome.ret 2, 1, true, some (uint32LE (List.replicate 20 1)),
        some ((List.replicate 20 1).take (Int.toNat 20)),
        some (Int.toNat 20), true⟩ :=
  ⟨(ExecuteUSBCommand_capacity_check _ 6 rfl (by decide) (by decide)
      (by decide)).1 (by decide),
   (ExecuteUSBCommand_capacity_check _ 30 rfl (by decide) (by decide)
      (by decide)).2 (by decide)⟩

/-- Claim C9: on the buffer-too-small branch the status word has already
been decoded out of the response and written to the by-reference op
argument, while the destination buffer and the by-reference size stay
untouched: the failure exit is not atomic with respect to op. -/
theorem ExecuteUSBCommand_too_small_writes_op (env : USBEnv) (inSize0 : Nat)
    (hlock : env.lockAcquired = true) (hout : 0 ≤ env.outResult)
    (hsz : inSize0 ≠ 0) (hx4 : 4 ≤ env.inTransferred)
    (hbig : (inSize0 : Int) < env.inTransferred) :
    ExecuteUSBCommand env true inSize0 =
      ⟨ExecOutcome.ret (-1), 1, true, some (uint32LE env.response),
        none, none, true⟩ := by
  have h1 : ¬ env.outResult < 0 := not_lt.mpr hout
  have h3 : ¬ env.inTransferred < 4 := by omega
  simp [ExecuteUSBCommand, hlock, h1, hsz, h3, hbig]

/-- Witness for claim C9 at a concrete 7-byte response against capacity 5. -/
theorem ExecuteUSBCommand_too_small_writes_op_witness :
    ((⟨true, 1, 0, 7, [9, 8, 7, 6, 5, 4, 3]⟩ : USBEnv).lockAcquired = true ∧
      (0 : Int) ≤ 1 ∧ (5 : Nat) ≠ 0 ∧ (4 : Int) ≤ 7 ∧ ((5 : Nat) : Int) < 7) ∧
    ExecuteUSBCommand ⟨true, 1, 0, 7, [9, 8, 7, 6, 5, 4, 3]⟩ true 5 =
      ⟨ExecOutcome.ret (-1), 1, true,
        some (uint32LE [9, 8, 7, 6, 5, 4, 3]), none, none, true⟩ :=
  ⟨⟨rfl, by decide, by decide, by decide, by decide⟩,
   ExecuteUSBCommand_too_small_writes_op _ 5 rfl (by decide) (by decide)
     (by decide) (by decide)⟩

/-- Claim C7: with capacity at least the 24-byte header size and a request
within the 1024-byte protocol maximum, the 16-bit little endian length
field at offset 0 equals the total bytes written minus 4, the returned
value and the by-reference size both equal the total bytes written, and the
total is at least the header size; with capacity below the header size the
sentinel 0 is returned. -/
theorem PrepareUSBCommand_length_field (rs0 op p1 p2 p3 p4 : Nat)
    (data : List Nat) :
    (IVCAM_MONITOR_HEADER_SIZE ≤ rs0 →
      IVCAM_MONITOR_HEADER_SIZE + data.length ≤ IVCAM_MONITOR_MAX_BUFFER_SIZE →
      uint16LE (PrepareUSBCommand rs0 op p1 p2 p3 p4 data).buffer =
          (PrepareUSBCommand rs0 op p1 p2 p3 p4 data).ret - 4 ∧
        (PrepareUSBCommand rs0 op p1 p2 p3 p4 data).ret =
          IVCAM_MONITOR_HEADER_SIZE + data.length ∧
        IVCAM_MONITOR_HEADER_SIZE ≤ (PrepareUSBCommand rs0 op p1 p2 p3 p4 data).ret ∧
        (PrepareUSBCommand rs0 op p1 p2 p3 p4 data).requestSize =
          (PrepareUSBCommand rs0 op p1 p2 p3 p4 data).ret) ∧
    (rs0 < IVCAM_MONITOR_HEADER_SIZE →
      (PrepareUSBCommand rs0 op p1 p2 p3 p4 data).ret = 0) := by
  constructor
  · intro h1 h2
    have hn : ¬ rs0 < IVCAM_MONITOR_HEADER_SIZE := not_lt.mpr h1
    unfold PrepareUSBCommand
    rw [if_neg hn]
    simp only [IVCAM_MONITOR_HEADER_SIZE, IVCAM_MONITOR_MAX_BUFFER_SIZE] at h2
    refine ⟨?_, rfl, Nat.le_add_right _ _, rfl⟩
    simp only [uint16LE, le16, List.cons_append, List.getD_cons_zero,
      List.getD_cons_succ, IVCAM_MONITOR_HEADER_SIZE]
    omega
  · intro h
    unfold PrepareUSBCommand
    rw [if_pos h]

/-- Witness for claim C7: a framed request with a 2-byte payload, and a
failing call with capacity 23. -/
theorem PrepareUSBCommand_length_field_witness :
    (uint16LE (PrepareUSBCommand 24 61 0 0 0 0 [5, 6]).buffer =
        (PrepareUSBCommand 24 61 0 0 0 0 [5, 6]).ret - 4 ∧
      (PrepareUSBCommand 24 61 0 0 0 0 [5, 6]).ret =
        IVCAM_MONITOR_HEADER_SIZE + ([5, 6] : List Nat).length ∧
      IVCAM_MONITOR_HEADER_SIZE ≤ (PrepareUSBCommand 24 61 0 0 0 0 [5, 6]).ret ∧
      (PrepareUSBCommand 24 61 0 0 0 0 [5, 6]).requestSize =
        (PrepareUSBCommand 24 61 0 0 0 0 [5, 6]).ret) ∧
    (PrepareUSBCommand 23 61 0 0 0 0 [5, 6]).ret = 0 :=
  ⟨(PrepareUSBCommand_length_field 24 61 0 0 0 0 [5, 6]).1 (by decide)
     (by decide),
   (PrepareUSBCommand_length_field 23 61 0 0 0 0 [5, 6]).2 (by decide)⟩

/-- Helper: dropping the 4 zeroed leading bytes of the versioned structure
and taking its 512-byte parameter field returns the filled region. -/
theorem bytesAt_four_512 (X : List Nat) (hle : X.length ≤ 512) :
    bytesAt (List.replicate 4 0 ++ X) 4 512 = X := by
  show ((List.replicate 4 0 ++ X).drop 4).take 512 = X
  have hdrop : ((List.replicate 4 (0 : Nat) ++ X).drop 4) = X := rfl
  rw [hdrop]
  exact List.take_of_length_le hle

/-- Claim C5: on a blob whose post-header region carries the valid tag and
BCD version exactly 13, the decoder fills the output structure with the 512
bytes starting one float past the tag (floats 1 and onward of the legacy
float array), fills the tester data header from the first 4 bytes and
zero-fills its remainder, and does not invoke the thermal data
initialization. -/
theorem ProjectionCalibrate_legacy_layout (sT : Nat) (raw : List Nat)
    (len : Nat) (cal0 : List Nat)
    (htag : bytesAt (raw.drop 4) 0 2 = [0x14, 0x0A])
    (hver : bcdtoint (bytesAt (raw.drop 4) 2 2) = IVCAM_MIN_SUPPORTED_VERSION) :
    ProjectionCalibrate sT raw len cal0 =
      ⟨bytesAt (raw.drop 4) 4 512,
       some (bytesAt (raw.drop 4) 0 4 ++ List.replicate (sT - 4) 0),
       false, true⟩ := by
  unfold ProjectionCalibrate getVersionOfCalibration
  rw [if_pos htag, hver, if_pos rfl]
  rfl

/-- Witness for claim C5 on a concrete version 13 blob. -/
theorem ProjectionCalibrate_legacy_layout_witness :
    (bytesAt (([9, 9, 9, 9, 0x14, 0x0A, 1, 3] ++ List.replicate 516 5).drop 4)
        0 2 = [0x14, 0x0A] ∧
      bcdtoint (bytesAt
        (([9, 9, 9, 9, 0x14, 0x0A, 1, 3] ++ List.replicate 516 5).drop 4) 2 2) =
        IVCAM_MIN_SUPPORTED_VERSION) ∧
    ProjectionCalibrate 8 ([9, 9, 9, 9, 0x14, 0x0A, 1, 3] ++
        List.replicate 516 5) 800 [1, 2] =
      ⟨bytesAt (([9, 9, 9, 9, 0x14, 0x0A, 1, 3] ++ List.replicate 516 5).drop 4)
         4 512,
       some (bytesAt
           (([9, 9, 9, 9, 0x14, 0x0A, 1, 3] ++ List.replicate 516 5).drop 4)
           0 4 ++ List.replicate (8 - 4) 0),
       false, true⟩ :=
  ⟨⟨by decide, by decide⟩,
   ProjectionCalibrate_legacy_layout 8 _ 800 [1, 2] (by decide) (by decide)⟩

/-- Claim C6: on a blob whose post-header tag differs from 0x14 0x0A, or
whose tag is valid but whose BCD version is below 13, the decoder takes no
branch: the output structure keeps its prior bytes, the tester data stays
unwritten and no collaborator entry point is invoked. -/
theorem ProjectionCalibrate_reject_untouched (sT : Nat) (raw : List Nat)
    (len : Nat) (cal0 : List Nat)
    (h : bytesAt (raw.drop 4) 0 2 ≠ [0x14, 0x0A] ∨
         (bytesAt (raw.drop 4) 0 2 = [0x14, 0x0A] ∧
           bcdtoint (bytesAt (raw.drop 4) 2 2) < IVCAM_MIN_SUPPORTED_VERSION)) :
    ProjectionCalibrate sT raw len cal0 = ⟨cal0, none, false, false⟩ := by
  unfold ProjectionCalibrate getVersionOfCalibration
  rcases h with h | ⟨h1, h2⟩
  · rw [if_neg h]
    rfl
  · rw [if_pos h1, if_neg (Nat.ne_of_lt h2), if_neg (Nat.lt_asymm h2)]

/-- Witness for claim C6 on a concrete blob with an invalid tag. -/
theorem ProjectionCalibrate_reject_untouched_witness :
    (bytesAt (([9, 9, 9, 9, 0, 0, 1, 4] ++ List.replicate 16 3).drop 4) 0 2 ≠
        ([0x14, 0x0A] : List Nat) ∨
      (bytesAt (([9, 9, 9, 9, 0, 0, 1, 4] ++ List.replicate 16 3).drop 4) 0 2 =
          [0x14, 0x0A] ∧
        bcdtoint (bytesAt
          (([9, 9, 9, 9, 0, 0, 1, 4] ++ List.replicate 16 3).drop 4) 2 2) <
          IVCAM_MIN_SUPPORTED_VERSION)) ∧
    ProjectionCalibrate 8 ([9, 9, 9, 9, 0, 0, 1, 4] ++ List.replicate 16 3)
        20 [7, 7] = ⟨[7, 7], none, false, false⟩ :=
  ⟨Or.inl (by decide),
   ProjectionCalibrate_reject_untouched 8 _ 20 [7, 7] (Or.inl (by decide))⟩

/-- Claim C4: on a blob whose post-header region carries the valid tag and
a BCD version above 13, the decoder covers the first
min(versioned-struct-size, len) bytes of the versioned structure, skipping
its leading integer field and filling the rest from the blob, so the output
structure receives the first min(516, len) - 4 blob bytes, zero padded to
512; the tester data receives the 4 header bytes plus the bytes at offset
512 + 4 of the post-header region; the thermal data initialization is
invoked. -/
theorem ProjectionCalibrate_versioned_layout (sT : Nat) (raw : List Nat)
    (len : Nat) (cal0 : List Nat)
    (htag : bytesAt (raw.drop 4) 0 2 = [0x14, 0x0A])
    (hver : IVCAM_MIN_SUPPORTED_VERSION < bcdtoint (bytesAt (raw.drop 4) 2 2))
    (_hsT : 4 ≤ sT) (hlen : 8 ≤ len) (hraw : 520 ≤ raw.length) :
    ProjectionCalibrate sT raw len cal0 =
      ⟨bytesAt (raw.drop 4) 0 (min 516 len - 4) ++
         List.replicate (516 - min 516 len) 0,
       some (bytesAt (raw.drop 4) 0 4 ++ bytesAt (raw.drop 4) 516 (sT - 4)),
       true, true⟩ := by
  have hA : (bytesAt (raw.drop 4) 0 (min 516 len - 4)).length =
      min 516 len - 4 := by
    unfold bytesAt
    rw [List.drop_zero, List.length_take, List.length_drop]
    omega
  have hle : (bytesAt (raw.drop 4) 0 (min 516 len - 4) ++
      List.replicate (516 - min 516 len) 0).length ≤ 512 := by
    rw [List.length_append, hA, List.length_replicate]
    omega
  unfold ProjectionCalibrate getVersionOfCalibration
  rw [if_pos htag, if_neg hver.ne', if_pos hver]
  show CalibResult.mk
    (bytesAt (List.replicate 4 0 ++
      (bytesAt (raw.drop 4) 0 (min 516 len - 4) ++
        List.replicate (516 - min 516 len) 0)) 4 512)
    (some (bytesAt (raw.drop 4) 0 4 ++ bytesAt (raw.drop 4) 516 (sT - 4)))
    true true = _
  rw [bytesAt_four_512 _ hle]

set_option maxRecDepth 100000 in
/-- Witness for claim C4 on a concrete version 14 blob of received length
20 against a 524 byte buffer. -/
theorem ProjectionCalibrate_versioned_layout_witness :
    (bytesAt (([9, 9, 9, 9, 0x14, 0x0A, 1, 4] ++ List.replicate 516 3).drop 4)
        0 2 = [0x14, 0x0A] ∧
      IVCAM_MIN_SUPPORTED_VERSION < bcdtoint (bytesAt
        (([9, 9, 9, 9, 0x14, 0x0A, 1, 4] ++ List.replicate 516 3).drop 4) 2 2) ∧
      4 ≤ 8 ∧ 8 ≤ 20 ∧
      520 ≤ ([9, 9, 9, 9, 0x14, 0x0A, 1, 4] ++ List.replicate 516 3).length) ∧
    ProjectionCalibrate 8 ([9, 9, 9, 9, 0x14, 0x0A, 1, 4] ++
        List.replicate 516 3) 20 [] =
      ⟨bytesAt (([9, 9, 9, 9, 0x14, 0x0A, 1, 4] ++ List.replicate 516 3).drop 4)
         0 (min 516 20 - 4) ++ List.replicate (516 - min 516 20) 0,
       some (bytesAt
           (([9, 9, 9, 9, 0x14, 0x0A, 1, 4] ++ List.replicate 516 3).drop 4)
           0 4 ++
         bytesAt (([9, 9, 9, 9, 0x14, 0x0A, 1, 4] ++ List.replicate 516 3).drop 4)
           516 (8 - 4)),
       true, true⟩ :=
  ⟨⟨by decide, by decide, by decide, by decide, by decide⟩,
   ProjectionCalibrate_versioned_layout 8 _ 20 [] (by decide) (by decide)
     (by decide) (by decide) (by decide)⟩

/-- Claim C10: the BCD decoder returns b0 * 10 + b1 for any two bytes with
no per digit range check; version extraction returns 0 for any tag other
than 0x14 0x0A; and a blob with the valid tag but version bytes 0, 0
decodes to version 0, so the decoder treats it exactly like a blob with an
invalid tag and produces no output. -/
theorem bcdtoint_and_zero_version :
    (∀ b0 b1 : Nat, b0 ≤ 255 → b1 ≤ 255 → bcdtoint [b0, b1] = b0 * 10 + b1) ∧
    (∀ t0 t1 v0 v1 : Nat, [t0, t1] ≠ ([0x14, 0x0A] : List Nat) →
      getVersionOfCalibration [t0, t1] [v0, v1] = 0) ∧
    (∀ (sT : Nat) (raw : List Nat) (len : Nat) (cal0 : List Nat),
      bytesAt (raw.drop 4) 0 2 = [0x14, 0x0A] →
      bytesAt (raw.drop 4) 2 2 = [0, 0] →
      ProjectionCalibrate sT raw len cal0 = ⟨cal0, none, false, false⟩ ∧
      ∀ raw2 : List Nat, bytesAt (raw2.drop 4) 0 2 ≠ [0x14, 0x0A] →
        ProjectionCalibrate sT raw2 len cal0 =
          ProjectionCalibrate sT raw len cal0) := by
  refine ⟨?_, ?_, ?_⟩
  · intro b0 b1 _ _
    simp [bcdtoint]
  · intro t0 t1 v0 v1 h
    unfold getVersionOfCalibration
    rw [if_neg h]
  · intro sT raw len cal0 htag hv
    have h0 : ProjectionCalibrate sT raw len cal0 = ⟨cal0, none, false, false⟩ := by
      unfold ProjectionCalibrate getVersionOfCalibration
      rw [if_pos htag, hv]
      rfl
    refine ⟨h0, ?_⟩
    intro raw2 h2
    rw [h0]
    unfold ProjectionCalibrate getVersionOfCalibration
    rw [if_neg h2]
    rfl

/-- Witness for claim C10 at concrete bytes and blobs. -/
theorem bcdtoint_and_zero_version_witness :
    bcdtoint [25, 37] = 25 * 10 + 37 ∧
    getVersionOfCalibration [1, 2] [3, 4] = 0 ∧
    (ProjectionCalibrate 8 ([9, 9, 9, 9, 0x14, 0x0A, 0, 0] ++
        List.replicate 16 3) 20 [7, 7] = ⟨[7, 7], none, false, false⟩ ∧
      ∀ raw2 : List Nat, bytesAt (raw2.drop 4) 0 2 ≠ [0x14, 0x0A] →
        ProjectionCalibrate 8 raw2 20 [7, 7] =
          ProjectionCalibrate 8 ([9, 9, 9, 9, 0x14, 0x0A, 0, 0] ++
            List.replicate 16 3) 20 [7, 7]) :=
  ⟨bcdtoint_and_zero_version.1 25 37 (by decide) (by decide),
   bcdtoint_and_zero_version.2.1 1 2 3 4 (by decide),
   bcdtoint_and_zero_version.2.2 8 _ 20 [7, 7] (by decide) (by decide)⟩
